import Mathlib

/-!
Verification of the document-ingestion and query pipelines of the
restaurant-menu RAG backend (FastAPI + LangChain + Chroma).

The embedding is shallow: each Python function of the repository becomes a
Lean function over explicit state.  External SDK behaviour (PDF text
extraction, the text splitter, the Chroma vector store, the embedding
service, the LLM, Firebase messaging) is not code of the repository; it is
taken as a parameter, or modelled by a small executable function whose doc
comment says exactly which external fact it encodes.
-/

namespace ChatbotBackend

/-- A LangChain document: page text plus source metadata, as produced by
PyPDFLoader and stored in the vector index.  Metadata is a key/value list
(for PDF pages: source file and page number). -/
structure Document where
  metadata    : List (String × String)
  pageContent : String
  deriving DecidableEq, Repr

/-! ## vector_store.py -/

/-- Text of the single bootstrap document inserted when the Chroma persistence
directory is first created (vector_store.py line 49). -/
def initialDocumentText : String :=
  "Este es un documento inicial para la base de datos vectorial."

/-- The bootstrap placeholder chunk created by Chroma.from_texts: one document
with the bootstrap text and empty metadata. -/
def initialDocument : Document :=
  { metadata := [], pageContent := initialDocumentText }

/-- State of the Chroma persistence directory as observed by get_vector_store:
whether the directory exists (os.path.exists), its directory entries
(os.listdir), and the index contents persisted there by previous runs. -/
structure PersistDir where
  dirExists   : Bool
  files       : List String
  storedIndex : List Document
  deriving DecidableEq

/-- Embedding of get_vector_store (vector_store.py lines 25-53).  If the
persistence directory exists and os.listdir is non-empty, the persisted index
is loaded unchanged; otherwise a new index is created holding exactly the one
bootstrap document (Chroma.from_texts with a single initial text). -/
def get_vector_store (p : PersistDir) : List Document :=
  if p.dirExists = true ∧ p.files ≠ [] then p.storedIndex
  else [initialDocument]

/-! ## pdf_service.py -/

/-- chunk_size passed to RecursiveCharacterTextSplitter (pdf_service.py line 45). -/
def chunk_size : Nat := 1000

/-- chunk_overlap passed to RecursiveCharacterTextSplitter (pdf_service.py line 46). -/
def chunk_overlap : Nat := 100

/-- Fuel-driven worker for the character chunker; the fuel is an upper bound on
the number of produced chunks, so recursion is structural and computable. -/
def chunkCharsAux : Nat → List Char → List (List Char)
  | 0, _ => []
  | _, [] => []
  | fuel + 1, c :: cs =>
    if (c :: cs).length ≤ chunk_size then [c :: cs]
    else (c :: cs).take chunk_size ::
      chunkCharsAux fuel ((c :: cs).drop (chunk_size - chunk_overlap))

/-- Modelled from the spec: the RecursiveCharacterTextSplitter is an external
library, and the spec fixes only the splitting policy (windows of at most
chunk_size characters with chunk_overlap overlap; empty text yields no chunk,
which is also the behaviour of the library's split_text on an empty string).
This conformant instance hard-cuts windows of chunk_size characters advancing
by chunk_size - chunk_overlap. -/
def chunkChars (l : List Char) : List (List Char) :=
  chunkCharsAux l.length l

/-- Split one loaded page into chunk documents carrying the page's metadata. -/
def splitDocument (d : Document) : List Document :=
  (chunkChars d.pageContent.toList).map fun cs => { d with pageContent := String.mk cs }

/-- split_documents of the text splitter: each page is split separately and the
chunk lists are concatenated in page order. -/
def split_documents (docs : List Document) : List Document :=
  docs.flatMap splitDocument

/-- The mutable state touched by the ingestion service: the vector index held
by the Chroma instance, and the set of temporary files currently on disk. -/
structure IngestState where
  index     : List Document
  tempFiles : List String
  deriving DecidableEq

/-- Outcome of the external steps of one upload-stream ingestion:
the path chosen by tempfile.NamedTemporaryFile, whether reading the upload
stream (file.file.read) and writing it to the temporary file succeed, the
result of PyPDFLoader.load on the materialized file, and whether the
vector-store upsert (add_documents) succeeds. -/
structure UploadBehavior where
  tmpPath    : String
  readOk     : Bool
  extraction : Except String (List Document)
  upsertOk   : Bool

/-- Embedding of process_and_update_vector_store (pdf_service.py lines 17-64).
tempfile.NamedTemporaryFile(delete=False) creates the temporary file at once;
tmp_file_path is assigned only after tmp_file.write(file.file.read()), so when
the read or write raises, the finally block's guard (tmp_file_path in locals())
is false and the file is not removed.  On every later path the finally block
removes the file.  Extraction failure and upsert failure re-raise to the
caller; the index is extended exactly on the fully successful path, by the
chunks the splitter produced.  The function returns None on success: the chunk
count is only printed. -/
def process_and_update_vector_store (splitter : List Document → List Document)
    (b : UploadBehavior) (s : IngestState) : Except String Unit × IngestState :=
  let created : IngestState := { s with tempFiles := b.tmpPath :: s.tempFiles }
  if b.readOk = false then
    (.error "read of the upload stream failed", created)
  else
    match b.extraction with
    | .error e =>
      (.error e, { created with tempFiles := created.tempFiles.erase b.tmpPath })
    | .ok documents =>
      let chunks := splitter documents
      if b.upsertOk = true then
        (.ok (), { created with
                    index := created.index ++ chunks
                    tempFiles := created.tempFiles.erase b.tmpPath })
      else
        (.error "IndexWriteError",
          { created with tempFiles := created.tempFiles.erase b.tmpPath })

/-- Embedding of process_pdf_from_path (pdf_service.py lines 67-100): same
load / split / add_documents sequence with no temporary file; any failure
re-raises and leaves the index unchanged. -/
def process_pdf_from_path (splitter : List Document → List Document)
    (extraction : Except String (List Document)) (upsertOk : Bool)
    (index : List Document) : Except String Unit × List Document :=
  match extraction with
  | .error e => (.error e, index)
  | .ok documents =>
    let chunks := splitter documents
    if upsertOk = true then (.ok (), index ++ chunks)
    else (.error "IndexWriteError", index)

/-! ## routes/chat.py -/

/-- Embedding of upload_pdf (chat.py lines 56-84): a request whose
content-type is not application/pdf is rejected with 400 before the service
runs; otherwise the ingestion service runs, success is mapped to the fixed
200 message and any exception to a 500 carrying the message. -/
def upload_pdf (splitter : List Document → List Document) (contentType : String)
    (b : UploadBehavior) (s : IngestState) : (Nat × String) × IngestState :=
  if contentType ≠ "application/pdf" then
    ((400, "Formato de archivo no válido. Por favor, sube un PDF."), s)
  else
    match process_and_update_vector_store splitter b s with
    | (.ok _, s2) =>
      ((200, "Nuevo PDF procesado y base de datos vectorial actualizada exitosamente."), s2)
    | (.error e, s2) =>
      ((500, "Ocurrió un error al procesar el archivo PDF: " ++ e), s2)

/-- Embedding of handle_chat (chat.py lines 30-54).  The RAG chain is the
external retrieval + LLM pipeline, a parameter that either answers or raises.
The endpoint applies the chain to the question verbatim, with no validation of
the question string; any exception becomes a 500 carrying the message. -/
def handle_chat (chain : String → Except String String) (question : String) :
    Nat × String :=
  match chain question with
  | .ok answer => (200, answer)
  | .error e => (500, "Ocurrió un error al procesar la pregunta: " ++ e)

/-! ## main.py: notification endpoints -/

/-- Embedding of register_fcm_token (main.py lines 120-129) over the in-memory
set fcm_tokens: add the token if it is not already present; the response
message is the same either way. -/
def register_fcm_token (token : String) (fcm_tokens : Finset String) :
    String × Finset String :=
  if token ∈ fcm_tokens then ("Token FCM registrado con éxito", fcm_tokens)
  else ("Token FCM registrado con éxito", insert token fcm_tokens)

/-- Embedding of send_notification_to_all (main.py lines 131-160).  With no
registered token the endpoint raises 404 before any messaging call; otherwise
one multicast batch holding all tokens is passed to messaging.send_multicast
(recorded in the second component as the list of issued network calls, each
call identified by its token batch), whose external outcome is
success/failure counts or an exception mapped to 500.  The token set is never
modified. -/
def send_notification_to_all (sendOutcome : Except String (Nat × Nat))
    (fcm_tokens : Finset String) : (Nat × List (Finset String)) × Finset String :=
  if fcm_tokens = ∅ then ((404, []), fcm_tokens)
  else
    match sendOutcome with
    | .ok _counts => ((200, [fcm_tokens]), fcm_tokens)
    | .error _ => ((500, [fcm_tokens]), fcm_tokens)

/-! ## core/rag_chain.py -/

/-- The fixed system-instruction part of prompt_template (rag_chain.py lines
28-35), transcribed byte for byte from the source, trailing spaces included. -/
def systemInstruction : String :=
  "\nEres un asistente de inteligencia artificial amigable y servicial, especializado en responder \npreguntas sobre el menú de un restaurante. Tu objetivo es proporcionar respuestas claras, \nconcisas y precisas, basándote únicamente en el contexto que se te proporciona a continuación.\n\nSi la información para responder la pregunta no se encuentra en el contexto, debes indicar \nrespetuosamente que no tienes la información solicitada. No intentes inventar una respuesta.\n"

/-- prompt_template (rag_chain.py lines 28-43): the literal template string
with its two placeholders. -/
def prompt_template : String :=
  systemInstruction ++ "\nContexto:\n{context}\n\nPregunta:\n{question}\n\nRespuesta:\n"

/-- Substitution of the two placeholders of prompt_template, as performed by
ChatPromptTemplate / str.format: the context value replaces the context
placeholder and the question replaces the question placeholder, both
verbatim. -/
def formatPrompt (context question : String) : String :=
  systemInstruction ++ "\nContexto:\n" ++ context ++ "\n\nPregunta:\n" ++ question
    ++ "\n\nRespuesta:\n"

/-- Python rendering of a metadata dict, keys and values quoted.  Only the
facts that the rendering is wrapped in braces and differs from the bare page
text matter below. -/
def reprMetadata (m : List (String × String)) : String :=
  "\x7b" ++
    String.intercalate ", "
      (m.map fun kv => "\x27" ++ kv.1 ++ "\x27: \x27" ++ kv.2 ++ "\x27") ++
    "\x7d"

/-- Python rendering of one LangChain Document, as produced by str() on the
pydantic model: the constructor name applied to the metadata dict and the
quoted page text. -/
def reprDocument (d : Document) : String :=
  "Document(metadata=" ++ reprMetadata d.metadata ++ ", page_content=\x27"
    ++ d.pageContent ++ "\x27)"

/-- Python str() of a list of Documents: bracketed, comma-separated document
renderings.  This is the string substituted for the context placeholder by
rag_chain.py line 67, where the raw retriever output (a list of Documents) is
piped into the prompt with no document formatter in between. -/
def reprDocumentList (ds : List Document) : String :=
  "[" ++ String.intercalate ", " (ds.map reprDocument) ++ "]"

/-- The number of chunks the retriever returns (rag_chain.py line 23). -/
def searchK : Nat := 3

/-- Similarity ordering used by the retriever: a is at least as close to the
query as b when its score is at least b's.  The scoring function (embedding
plus similarity metric) is the external Chroma / embedding service, taken as
a parameter. -/
def byScore (f : Document → ℤ) (a b : Document) : Prop := f b ≤ f a

instance (f : Document → ℤ) : DecidableRel (byScore f) := fun a b =>
  inferInstanceAs (Decidable (f b ≤ f a))

instance (f : Document → ℤ) : IsTotal Document (byScore f) :=
  ⟨fun a b => le_total (f b) (f a)⟩

instance (f : Document → ℤ) : IsTrans Document (byScore f) :=
  ⟨fun _ _ _ hab hbc => le_trans hbc hab⟩

/-- The retriever (rag_chain.py line 23): the searchK indexed documents most
similar to the question under the external scoring function, modelled as
sorting by decreasing score and taking the first searchK. -/
def retrieve (score : String → Document → ℤ) (index : List Document)
    (q : String) : List Document :=
  (List.insertionSort (byScore (score q)) index).take searchK

/-- The indexed documents the retriever does not return (the remainder of the
sort of retrieve). -/
def retrieveRest (score : String → Document → ℤ) (index : List Document)
    (q : String) : List Document :=
  (List.insertionSort (byScore (score q)) index).drop searchK

/-- The prompt string the rag_chain sends to the LLM for a question
(rag_chain.py lines 66-71): the runnable dict feeds the retriever output into
the context placeholder and the unchanged question into the question
placeholder of the template. -/
def ragChainPrompt (score : String → Document → ℤ) (index : List Document)
    (q : String) : String :=
  formatPrompt (reprDocumentList (retrieve score index q)) q

/-! ## Whole-application operations (for the cross-operation invariants) -/

/-- One incoming request, with the outcomes of the external calls it makes. -/
inductive Op where
  | upload (contentType : String) (b : UploadBehavior) : Op
  | ingestPath (extraction : Except String (List Document)) (upsertOk : Bool) : Op
  | chat (q : String) : Op
  | registerToken (t : String) : Op
  | sendNotification (outcome : Except String (Nat × Nat)) : Op
  | health : Op

/-- The mutable state of the running application: the vector index, the
temporary files on disk, and the in-memory FCM token set. -/
structure AppState where
  index      : List Document
  tempFiles  : List String
  fcm_tokens : Finset String

/-- State transition of one request, combining the endpoint embeddings.
Queries and the health check never write; uploads go through upload_pdf; the
startup path ingestion goes through process_pdf_from_path; the notification
endpoints touch only the token set. -/
def step (splitter : List Document → List Document) (op : Op) (s : AppState) :
    AppState :=
  match op with
  | .upload ct b =>
    let r := upload_pdf splitter ct b { index := s.index, tempFiles := s.tempFiles }
    { s with index := r.2.index, tempFiles := r.2.tempFiles }
  | .ingestPath ex up =>
    { s with index := (process_pdf_from_path splitter ex up s.index).2 }
  | .chat _ => s
  | .registerToken t =>
    { s with fcm_tokens := (register_fcm_token t s.fcm_tokens).2 }
  | .sendNotification outcome =>
    { s with fcm_tokens := (send_notification_to_all outcome s.fcm_tokens).2 }
  | .health => s

/-! ## Helper lemmas on the ingestion service -/

theorem process_read_error (splitter : List Document → List Document)
    (b : UploadBehavior) (s : IngestState) (h : b.readOk = false) :
    process_and_update_vector_store splitter b s =
      (.error "read of the upload stream failed",
        { s with tempFiles := b.tmpPath :: s.tempFiles }) := by
  simp [process_and_update_vector_store, h]

theorem process_extraction_error (splitter : List Document → List Document)
    (b : UploadBehavior) (s : IngestState) (e : String)
    (hr : b.readOk = true) (he : b.extraction = .error e) :
    process_and_update_vector_store splitter b s = (.error e, s) := by
  simp [process_and_update_vector_store, hr, he, List.erase_cons_head]

theorem process_ok (splitter : List Document → List Document)
    (b : UploadBehavior) (s : IngestState) (pages : List Document)
    (hr : b.readOk = true) (he : b.extraction = .ok pages) (hu : b.upsertOk = true) :
    process_and_update_vector_store splitter b s =
      (.ok (), { s with index := s.index ++ splitter pages }) := by
  simp [process_and_update_vector_store, hr, he, hu, List.erase_cons_head]

theorem process_upsert_error (splitter : List Document → List Document)
    (b : UploadBehavior) (s : IngestState) (pages : List Document)
    (hr : b.readOk = true) (he : b.extraction = .ok pages) (hu : b.upsertOk = false) :
    process_and_update_vector_store splitter b s = (.error "IndexWriteError", s) := by
  simp [process_and_update_vector_store, hr, he, hu, List.erase_cons_head]

theorem upload_pdf_ok (splitter : List Document → List Document)
    (b : UploadBehavior) (s : IngestState) (pages : List Document)
    (hr : b.readOk = true) (he : b.extraction = .ok pages) (hu : b.upsertOk = true) :
    upload_pdf splitter "application/pdf" b s =
      ((200, "Nuevo PDF procesado y base de datos vectorial actualizada exitosamente."),
        { s with index := s.index ++ splitter pages }) := by
  rw [upload_pdf, if_neg (by simp), process_ok splitter b s pages hr he hu]

/-! ## Concrete runs used by counterexamples and witnesses -/

/-- A loaded PDF page with no extractable text (for example a scanned page). -/
def emptyPage : Document :=
  { metadata := [("source", "menu.pdf"), ("page", "0")], pageContent := "" }

/-- An upload whose only page has no extractable text; all external steps
succeed. -/
def emptyPageUpload : UploadBehavior :=
  { tmpPath := "/tmp/upload0.pdf", readOk := true,
    extraction := .ok [emptyPage], upsertOk := true }

/-- A loaded PDF page with one line of menu text. -/
def pizzaChunk : Document :=
  { metadata := [("source", "menu.pdf"), ("page", "0")],
    pageContent := "Pizza: 10 USD" }

/-- The same upload with one page of extractable text. -/
def onePageUpload : UploadBehavior :=
  { emptyPageUpload with extraction := .ok [pizzaChunk] }

/-- An upload whose materialized file is not a readable PDF: extraction
raises. -/
def badPdfUpload : UploadBehavior :=
  { tmpPath := "/tmp/upload2.pdf", readOk := true,
    extraction := .error "invalid pdf", upsertOk := true }

/-- An upload whose stream read raises after the temporary file has been
created. -/
def disconnectedUpload : UploadBehavior :=
  { tmpPath := "/tmp/upload1.pdf", readOk := false,
    extraction := .ok [], upsertOk := true }

/-! ## Claims -/

/-- Claim C1 (counterexample): a run whose extraction succeeds but whose only
page has no extractable text appends zero chunks to the vector index, not
N ≥ 1; and the value returned to the caller is identical to that of a run
that appends one chunk, so the chunk count is not reported to the caller. -/
theorem C1_counterexample :
    emptyPageUpload.extraction = .ok [emptyPage] ∧
    (process_and_update_vector_store split_documents emptyPageUpload
        { index := [], tempFiles := [] }).1 = .ok () ∧
    (process_and_update_vector_store split_documents emptyPageUpload
        { index := [], tempFiles := [] }).2.index.length = 0 ∧
    (process_and_update_vector_store split_documents onePageUpload
        { index := [], tempFiles := [] }).2.index.length = 1 ∧
    (process_and_update_vector_store split_documents onePageUpload
        { index := [], tempFiles := [] }).1 =
      (process_and_update_vector_store split_documents emptyPageUpload
        { index := [], tempFiles := [] }).1 :=
  ⟨rfl, rfl, rfl, rfl, rfl⟩

/-- Claim C1 (amended): for every PDF source (upload stream or filesystem
path), if text extraction fails the pipeline produces zero side effects — the
vector index, and for uploads the set of temporary files, are unchanged — and
the error propagates to the caller; otherwise it appends to the vector index
exactly the chunks the splitter produced, possibly zero, and signals plain
success without reporting the chunk count to the caller (the count is only
printed to the log). -/
theorem C1_amended (splitter : List Document → List Document)
    (b : UploadBehavior) (s : IngestState)
    (ex : Except String (List Document)) (up : Bool) (idx : List Document) :
    (∀ e, b.readOk = true → b.extraction = .error e →
      process_and_update_vector_store splitter b s = (.error e, s)) ∧
    (∀ pages, b.readOk = true → b.extraction = .ok pages → b.upsertOk = true →
      process_and_update_vector_store splitter b s =
        (.ok (), { s with index := s.index ++ splitter pages })) ∧
    (∀ e, ex = .error e →
      process_pdf_from_path splitter ex up idx = (.error e, idx)) ∧
    (∀ pages, ex = .ok pages → up = true →
      process_pdf_from_path splitter ex up idx = (.ok (), idx ++ splitter pages)) := by
  refine ⟨?_, ?_, ?_, ?_⟩
  · intro e hr he; exact process_extraction_error splitter b s e hr he
  · intro pages hr he hu; exact process_ok splitter b s pages hr he hu
  · intro e he; simp [process_pdf_from_path, he]
  · intro pages he hu; simp [process_pdf_from_path, he, hu]

theorem C1_amended_witness :
    process_and_update_vector_store split_documents badPdfUpload
        { index := [pizzaChunk], tempFiles := [] } =
      (.error "invalid pdf", { index := [pizzaChunk], tempFiles := [] }) ∧
    process_and_update_vector_store split_documents onePageUpload
        { index := [], tempFiles := [] } =
      (.ok (), { index := [] ++ split_documents [pizzaChunk], tempFiles := [] }) ∧
    process_pdf_from_path split_documents (.error "invalid pdf") true [pizzaChunk] =
      (.error "invalid pdf", [pizzaChunk]) ∧
    process_pdf_from_path split_documents (.ok [pizzaChunk]) true [] =
      (.ok (), [] ++ split_documents [pizzaChunk]) :=
  ⟨(C1_amended split_documents badPdfUpload
      { index := [pizzaChunk], tempFiles := [] } (.error "invalid pdf") true []).1
      "invalid pdf" rfl rfl,
   (C1_amended split_documents onePageUpload
      { index := [], tempFiles := [] } (.ok [pizzaChunk]) true []).2.1
      [pizzaChunk] rfl rfl rfl,
   (C1_amended split_documents badPdfUpload
      { index := [], tempFiles := [] } (.error "invalid pdf") true [pizzaChunk]).2.2.1
      "invalid pdf" rfl,
   (C1_amended split_documents onePageUpload
      { index := [], tempFiles := [] } (.ok [pizzaChunk]) true []).2.2.2
      [pizzaChunk] rfl rfl⟩

/-- Claim C2: every upload whose content type is not application/pdf is
answered with HTTP 400 and the state — the vector index and the temporary
files — is returned untouched, so no chunk is added and no temporary file is
created. -/
theorem C2_thm (splitter : List Document → List Document) (contentType : String)
    (b : UploadBehavior) (s : IngestState) (h : contentType ≠ "application/pdf") :
    upload_pdf splitter contentType b s =
      ((400, "Formato de archivo no válido. Por favor, sube un PDF."), s) := by
  simp [upload_pdf, h]

theorem C2_witness :
    upload_pdf split_documents "text/plain" onePageUpload
        { index := [], tempFiles := [] } =
      ((400, "Formato de archivo no válido. Por favor, sube un PDF."),
        { index := [], tempFiles := [] }) :=
  C2_thm split_documents "text/plain" onePageUpload
    { index := [], tempFiles := [] } (by decide)

/-- Claim C3 at the failing input: when reading the upload stream raises
after the temporary file has already been created (readOk = false), the
temporary file survives the call — tmp_file_path is assigned only after the
write, so the guard of the finally block skips the removal — while after an
extraction failure, an upsert failure or a success the file is removed. -/
theorem C3_leak :
    (process_and_update_vector_store split_documents disconnectedUpload
        { index := [], tempFiles := [] }).2.tempFiles = ["/tmp/upload1.pdf"] ∧
    (process_and_update_vector_store split_documents badPdfUpload
        { index := [], tempFiles := [] }).2.tempFiles = [] ∧
    (process_and_update_vector_store split_documents
        { onePageUpload with upsertOk := false }
        { index := [], tempFiles := [] }).2.tempFiles = [] ∧
    (process_and_update_vector_store split_documents onePageUpload
        { index := [], tempFiles := [] }).2.tempFiles = [] :=
  ⟨rfl, rfl, rfl, rfl⟩

set_option maxRecDepth 40000 in
/-- Claim C4 (counterexample): with a single retrieved chunk the prompt built
by the chain is not the instruction followed by the bare chunk text under the
Contexto label: the context slot receives the Python rendering of the
Document list, not the concatenation of the chunk texts. -/
theorem C4_counterexample :
    ragChainPrompt (fun _ _ => 0) [pizzaChunk] "precio de la pizza" ≠
      formatPrompt (String.join ([pizzaChunk].map Document.pageContent))
        "precio de la pizza" := by
  decide

set_option maxRecDepth 40000 in
/-- Claim C4 (amended): the prompt sent to the LLM is the fixed system
instruction, then the Python string rendering of the retrieved Document list
under the label Contexto, then the question verbatim under the label
Pregunta, then the Respuesta header, in exactly that order; and this
decomposition agrees with the literal prompt_template of the source when the
placeholders are substituted. -/
theorem C4_amended (score : String → Document → ℤ) (index : List Document)
    (q : String) :
    ragChainPrompt score index q =
      systemInstruction ++ "\nContexto:\n"
        ++ reprDocumentList (retrieve score index q)
        ++ "\n\nPregunta:\n" ++ q ++ "\n\nRespuesta:\n" ∧
    formatPrompt "{context}" "{question}" = prompt_template :=
  ⟨rfl, by decide⟩

/-- Claim C5: for every question the retriever returns the searchK = 3 most
similar indexed chunks under the external scoring function: the returned list
has length min 3 (index size), together with the unreturned rest it is a
permutation of the index, every returned chunk scores at least every
unreturned chunk, and exactly the returned list is used as the context of the
prompt. -/
theorem C5_thm (score : String → Document → ℤ) (index : List Document)
    (q : String) :
    searchK = 3 ∧
    (retrieve score index q).length = min 3 index.length ∧
    List.Perm (retrieve score index q ++ retrieveRest score index q) index ∧
    (∀ x ∈ retrieve score index q, ∀ y ∈ retrieveRest score index q,
      score q y ≤ score q x) ∧
    ragChainPrompt score index q =
      formatPrompt (reprDocumentList (retrieve score index q)) q := by
  refine ⟨rfl, ?_, ?_, ?_, rfl⟩
  · simp [retrieve, searchK, List.length_take, List.length_insertionSort]
  · rw [retrieve, retrieveRest, List.take_append_drop]
    exact List.perm_insertionSort _ _
  · intro x hx y hy
    have hs : List.Pairwise (byScore (score q))
        (List.insertionSort (byScore (score q)) index) :=
      List.sorted_insertionSort _ _
    rw [← List.take_append_drop searchK
      (List.insertionSort (byScore (score q)) index)] at hs
    exact (List.pairwise_append.mp hs).2.2 x hx y hy

/-- A concrete scoring function: longer chunks score higher. -/
def scoreByLength (_q : String) (d : Document) : ℤ := d.pageContent.length

theorem C5_witness :
    searchK = 3 ∧
    (retrieve scoreByLength [initialDocument, pizzaChunk, emptyPage, pizzaChunk]
        "hola").length =
      min 3 ([initialDocument, pizzaChunk, emptyPage, pizzaChunk] : List Document).length ∧
    List.Perm
      (retrieve scoreByLength [initialDocument, pizzaChunk, emptyPage, pizzaChunk] "hola"
        ++ retrieveRest scoreByLength [initialDocument, pizzaChunk, emptyPage, pizzaChunk]
            "hola")
      [initialDocument, pizzaChunk, emptyPage, pizzaChunk] ∧
    (∀ x ∈ retrieve scoreByLength [initialDocument, pizzaChunk, emptyPage, pizzaChunk]
        "hola",
      ∀ y ∈ retrieveRest scoreByLength [initialDocument, pizzaChunk, emptyPage, pizzaChunk]
        "hola",
      scoreByLength "hola" y ≤ scoreByLength "hola" x) ∧
    ragChainPrompt scoreByLength [initialDocument, pizzaChunk, emptyPage, pizzaChunk]
        "hola" =
      formatPrompt
        (reprDocumentList
          (retrieve scoreByLength [initialDocument, pizzaChunk, emptyPage, pizzaChunk]
            "hola"))
        "hola" :=
  C5_thm scoreByLength [initialDocument, pizzaChunk, emptyPage, pizzaChunk] "hola"

/-! ## Helper lemmas for the cross-operation invariant -/

theorem upload_pdf_state (splitter : List Document → List Document)
    (ct : String) (b : UploadBehavior) (st : IngestState) :
    (upload_pdf splitter ct b st).2 =
      if ct ≠ "application/pdf" then st
      else (process_and_update_vector_store splitter b st).2 := by
  by_cases h : ct ≠ "application/pdf"
  · simp [upload_pdf, h]
  · simp only [upload_pdf, h, if_neg, if_false]
    cases hp : process_and_update_vector_store splitter b st with
    | mk res s2 => cases res <;> simp

theorem process_index_extends (splitter : List Document → List Document)
    (b : UploadBehavior) (s : IngestState) :
    ∃ t, (process_and_update_vector_store splitter b s).2.index = s.index ++ t := by
  unfold process_and_update_vector_store
  by_cases hr : b.readOk = false
  · exact ⟨[], by simp [hr]⟩
  · cases he : b.extraction with
    | error e => exact ⟨[], by simp [hr, he]⟩
    | ok pages =>
      by_cases hu : b.upsertOk = true
      · exact ⟨splitter pages, by simp [hr, he, hu]⟩
      · exact ⟨[], by simp [hr, he, hu]⟩

theorem step_index_extends (splitter : List Document → List Document)
    (op : Op) (s : AppState) :
    ∃ t, (step splitter op s).index = s.index ++ t := by
  cases op with
  | upload ct b =>
    by_cases h : ct ≠ "application/pdf"
    · exact ⟨[], by simp [step, upload_pdf_state, h]⟩
    · obtain ⟨t, ht⟩ := process_index_extends splitter b
        { index := s.index, tempFiles := s.tempFiles }
      exact ⟨t, by simp [step, upload_pdf_state, h, ht]⟩
  | ingestPath ex up =>
    cases ex with
    | error e => exact ⟨[], by simp [step, process_pdf_from_path]⟩
    | ok pages =>
      by_cases hu : up = true
      · exact ⟨splitter pages, by simp [step, process_pdf_from_path, hu]⟩
      · exact ⟨[], by simp [step, process_pdf_from_path, hu]⟩
  | chat q => exact ⟨[], by simp [step]⟩
  | registerToken t => exact ⟨[], by simp [step]⟩
  | sendNotification outcome => exact ⟨[], by simp [step]⟩
  | health => exact ⟨[], by simp [step]⟩

theorem step_index_facts (splitter : List Document → List Document)
    (op : Op) (s : AppState) :
    (step splitter op s).index.take s.index.length = s.index ∧
    s.index.length ≤ (step splitter op s).index.length := by
  obtain ⟨t, ht⟩ := step_index_extends splitter op s
  rw [ht]
  exact ⟨List.take_left s.index t, by simp⟩

theorem foldl_index_mono (splitter : List Document → List Document)
    (ops : List Op) (s : AppState) :
    s.index.length ≤ (ops.foldl (fun t o => step splitter o t) s).index.length := by
  induction ops generalizing s with
  | nil => exact le_refl _
  | cons o rest ih =>
    calc s.index.length ≤ (step splitter o s).index.length :=
          (step_index_facts splitter o s).2
      _ ≤ _ := ih (step splitter o s)

/-- Claim C6: every operation keeps the previous index as a prefix of the new
one (nothing is deleted or replaced) and never shrinks it; over any sequence
of operations the index size is monotonically non-decreasing; and ingesting
the same valid PDF twice leaves each of its chunk texts in the index at least
twice (no deduplication). -/
theorem C6_thm (splitter : List Document → List Document) (op : Op)
    (s : AppState) (ops : List Op) (b : UploadBehavior) (pages : List Document)
    (c : String) :
    ((step splitter op s).index.take s.index.length = s.index ∧
      s.index.length ≤ (step splitter op s).index.length) ∧
    s.index.length ≤ (ops.foldl (fun t o => step splitter o t) s).index.length ∧
    (b.readOk = true → b.extraction = .ok pages → b.upsertOk = true →
      1 ≤ ((splitter pages).map Document.pageContent).count c →
      2 ≤ ((step splitter (.upload "application/pdf" b)
            (step splitter (.upload "application/pdf" b) s)).index.map
          Document.pageContent).count c) := by
  refine ⟨step_index_facts splitter op s, foldl_index_mono splitter ops s, ?_⟩
  intro hr he hu hc
  have h1 := upload_pdf_ok splitter b { index := s.index, tempFiles := s.tempFiles }
    pages hr he hu
  have h2 := upload_pdf_ok splitter b
    { index := s.index ++ splitter pages, tempFiles := s.tempFiles } pages hr he hu
  simp only [step, h1, h2]
  simp [List.count_append]
  omega

/-- A starting application state holding only the bootstrap document. -/
def appState0 : AppState :=
  { index := [initialDocument], tempFiles := [], fcm_tokens := ∅ }

theorem C6_witness :
    (step split_documents (.chat "hola") appState0).index.take
        appState0.index.length = appState0.index ∧
    appState0.index.length ≤
      (([Op.registerToken "t1", Op.chat "hola"].foldl
        (fun t o => step split_documents o t) appState0)).index.length ∧
    2 ≤ ((step split_documents (.upload "application/pdf" onePageUpload)
          (step split_documents (.upload "application/pdf" onePageUpload)
            appState0)).index.map Document.pageContent).count "Pizza: 10 USD" :=
  ⟨(C6_thm split_documents (.chat "hola") appState0 [Op.registerToken "t1", Op.chat "hola"]
      onePageUpload [pizzaChunk] "Pizza: 10 USD").1.1,
   (C6_thm split_documents (.chat "hola") appState0 [Op.registerToken "t1", Op.chat "hola"]
      onePageUpload [pizzaChunk] "Pizza: 10 USD").2.1,
   (C6_thm split_documents (.chat "hola") appState0 [Op.registerToken "t1", Op.chat "hola"]
      onePageUpload [pizzaChunk] "Pizza: 10 USD").2.2 rfl rfl rfl (by decide)⟩

/-- Claim C7: registering the same device token twice results in exactly one
entry for that token in the token set, the set after the second call equals
the set after the first call, and the response message is the same. -/
theorem C7_thm (t : String) (s : Finset String) :
    (register_fcm_token t (register_fcm_token t s).2).2 = (register_fcm_token t s).2 ∧
    ((register_fcm_token t s).2.filter (· = t)).card = 1 ∧
    (register_fcm_token t (register_fcm_token t s).2).1 = (register_fcm_token t s).1 := by
  by_cases h : t ∈ s
  · refine ⟨by simp [register_fcm_token, h], ?_, by simp [register_fcm_token, h]⟩
    simp [register_fcm_token, h, Finset.filter_eq']
  · refine ⟨by simp [register_fcm_token, h], ?_, by simp [register_fcm_token, h]⟩
    simp [register_fcm_token, h, Finset.filter_eq']

/-- Claim C8: when the registered-token set is empty, send-notification
answers 404, issues no network call, and leaves the token set unchanged. -/
theorem C8_thm (sendOutcome : Except String (Nat × Nat)) (tokens : Finset String)
    (h : tokens = ∅) :
    send_notification_to_all sendOutcome tokens = ((404, []), tokens) := by
  subst h
  simp [send_notification_to_all]

theorem C8_witness :
    send_notification_to_all (.ok (0, 0)) (∅ : Finset String) = ((404, []), ∅) :=
  C8_thm (.ok (0, 0)) ∅ rfl

/-- Claim C9: when the persistence directory is absent or empty, the store is
created with exactly the single bootstrap placeholder chunk, hence non-empty;
when the directory exists and is non-empty, the persisted index is loaded
unchanged and nothing is inserted; in both cases the result is non-empty as
long as a previously persisted index never was empty. -/
theorem C9_thm (p : PersistDir) :
    (¬(p.dirExists = true ∧ p.files ≠ []) →
      get_vector_store p = [initialDocument] ∧ (get_vector_store p).length = 1) ∧
    (p.dirExists = true → p.files ≠ [] → get_vector_store p = p.storedIndex) ∧
    (p.storedIndex ≠ [] → get_vector_store p ≠ []) := by
  by_cases h : p.dirExists = true ∧ p.files ≠ []
  · refine ⟨fun hn => absurd h hn, fun _ _ => by simp [get_vector_store, h], ?_⟩
    intro hs
    simp [get_vector_store, h, hs]
  · refine ⟨fun _ => by simp [get_vector_store, h], ?_, ?_⟩
    · intro h1 h2; exact absurd ⟨h1, h2⟩ h
    · intro _; simp [get_vector_store, h]

theorem C9_witness :
    get_vector_store { dirExists := false, files := [], storedIndex := [] } =
      [initialDocument] ∧
    get_vector_store
        { dirExists := true, files := ["chroma.sqlite3"],
          storedIndex := [initialDocument, pizzaChunk] } =
      [initialDocument, pizzaChunk] :=
  ⟨((C9_thm { dirExists := false, files := [], storedIndex := [] }).1
      (by decide)).1,
   (C9_thm { dirExists := true, files := ["chroma.sqlite3"],
              storedIndex := [initialDocument, pizzaChunk] }).2.1 rfl (by decide)⟩

/-- Claim C10: the chat endpoint enforces no non-empty-question precondition:
the empty question (like any other string) is accepted and handed to the RAG
chain unchanged, the endpoint's answer is determined by the chain's answer on
exactly that question, and the only failure mode is a 500 produced when the
chain raises. -/
theorem C10_thm (chain : String → Except String String) (q a e : String) :
    (chain "" = .ok a → handle_chat chain "" = (200, a)) ∧
    (chain q = .ok a → handle_chat chain q = (200, a)) ∧
    (chain q = .error e →
      handle_chat chain q = (500, "Ocurrió un error al procesar la pregunta: " ++ e)) ∧
    (∀ chain2 : String → Except String String, chain q = chain2 q →
      handle_chat chain q = handle_chat chain2 q) ∧
    ((handle_chat chain q).1 = 200 ∨ (handle_chat chain q).1 = 500) := by
  refine ⟨?_, ?_, ?_, ?_, ?_⟩
  · intro h; simp [handle_chat, h]
  · intro h; simp [handle_chat, h]
  · intro h; simp [handle_chat, h]
  · intro chain2 h; simp [handle_chat, h]
  · cases h : chain q with
    | ok a2 => exact Or.inl (by simp [handle_chat, h])
    | error e2 => exact Or.inr (by simp [handle_chat, h])

theorem C10_witness :
    handle_chat (fun s => .ok ("eco: " ++ s)) "" = (200, "eco: ") ∧
    handle_chat (fun _ => .error "RetrievalError") "hola" =
      (500, "Ocurrió un error al procesar la pregunta: " ++ "RetrievalError") :=
  ⟨(C10_thm (fun s => .ok ("eco: " ++ s)) "" "eco: " "x").1 rfl,
   (C10_thm (fun _ => .error "RetrievalError") "hola" "a" "RetrievalError").2.2.1 rfl⟩

end ChatbotBackend
